import Mathlib

/-!
Verification of `src/rclcpp_examples/src/topics/joystick_listener.cpp`.

The file contains a single callback `chatterCallback` that prints one line
per joystick axis and one line per button, and a `main` that registers that
callback on topic "joy" with the default QoS profile and spins.

Modelling choices:
* `float32` axis values are modelled as rationals (`ℚ`): every finite IEEE
  single-precision value is a rational, and the claims only involve finite
  values. `int32` button values are modelled as `Int`.
* `std::cout << x` for a `float` with default stream flags formats like
  `printf "%g"` with precision 6; `fmtG6` implements that rendering on the
  rational value (round to 6 significant digits, fixed notation when the
  decimal exponent is in [-4, 6), otherwise scientific, trailing zeros
  stripped). Ties in the decimal rounding are rounded up; the claims never
  hit a tie.
* The C++ loops `for(int i=0; i<seq.size(); i++) print(...)` are modelled by
  `loopPrint`, which emits the line for index `n-1` after the lines for
  indices `0..n-2`, exactly as the loop does. Sequence sizes are modelled as
  `Nat` (the examples never approach `INT_MAX`).
-/

/-- Decimal digit characters of a natural number, most significant first
(as produced by `std::ostream` for integers; `"0"` for `0`). -/
def natDigits (x : Nat) : List Char := Nat.toDigits 10 x

/-- Number of decimal digits of a natural number (at least 1). -/
def digits10 (x : Nat) : Nat := (natDigits x).length

/-- Smallest `k ≥ k0` with `d ≤ n * 10 ^ k`, found with explicit fuel. -/
def findScale (n d : Nat) : Nat → Nat → Nat
  | 0, k => k
  | fuel + 1, k => if d ≤ n * 10 ^ k then k else findScale n d fuel (k + 1)

/-- Decimal exponent of the positive rational `n / d`: the unique `e` with
`10 ^ e ≤ n / d < 10 ^ (e + 1)`. -/
def decExp (n d : Nat) : Int :=
  if d ≤ n then (digits10 (n / d) : Int) - 1
  else - (findScale n d (digits10 d + 1) 1 : Int)

/-- Rounded division of naturals, ties away from zero. -/
def roundDiv (num den : Nat) : Nat := (2 * num + den) / (2 * den)

/-- Round the positive rational `n / d` to 6 significant decimal digits:
returns the digit block `m ∈ [10^5, 10^6)` and the decimal exponent. -/
def sig6 (n d : Nat) : Nat × Int :=
  let e := decExp n d
  let m :=
    if e ≤ 5 then roundDiv (n * 10 ^ (5 - e).toNat) d
    else roundDiv n (d * 10 ^ (e - 5).toNat)
  if m = 10 ^ 6 then (10 ^ 5, e + 1) else (m, e)

/-- Drop trailing `'0'` characters. -/
def stripZeros (s : List Char) : List Char :=
  (s.reverse.dropWhile (fun c => c = '0')).reverse

/-- Fixed-point rendering of a 6-digit block `digs` with decimal exponent
`e ∈ [-4, 6)`, trailing zeros (and a then-trailing point) removed. -/
def fixedForm (digs : List Char) (e : Int) : String :=
  if 0 ≤ e then
    let k := e.toNat + 1
    let frac := stripZeros (digs.drop k)
    String.mk (digs.take k) ++ (if frac.isEmpty then "" else "." ++ String.mk frac)
  else
    let zeros := List.replicate (-e - 1).toNat '0'
    "0." ++ String.mk (zeros ++ stripZeros digs)

/-- Scientific rendering `d.ddddde±XX` of a 6-digit block with exponent `e`,
trailing zeros of the mantissa removed, exponent padded to two digits. -/
def sciForm (digs : List Char) (e : Int) : String :=
  let frac := stripZeros (digs.drop 1)
  let mant := String.mk (digs.take 1) ++ (if frac.isEmpty then "" else "." ++ String.mk frac)
  let ea := e.natAbs
  let es := if ea < 10 then "0" ++ String.mk (natDigits ea) else String.mk (natDigits ea)
  mant ++ "e" ++ (if e < 0 then "-" else "+") ++ es

/-- Rendering of a finite `float` value by `std::cout <<` with default stream
flags (`%g`, precision 6), on its exact rational value. -/
def fmtG6 (q : ℚ) : String :=
  if q = 0 then "0"
  else
    let p := sig6 q.num.natAbs q.den
    let digs := natDigits p.1
    let body := if -4 ≤ p.2 ∧ p.2 < 6 then fixedForm digs p.2 else sciForm digs p.2
    (if q.num < 0 then "-" else "") ++ body

/-- Rendering of an `int32` value by `std::cout <<`. -/
def fmtInt (i : Int) : String :=
  (if i < 0 then "-" else "") ++ String.mk (natDigits i.natAbs)

/-- Header of a ROS message (`std_msgs/Header`): a time stamp and a frame id.
The callback never reads it. -/
structure Header where
  stampSec : Int
  stampNanosec : Nat
  frameId : String
  deriving DecidableEq

/-- The `sensor_msgs/msg/Joy` message: a header, a sequence of `float32`
axis values and a sequence of `int32` button values. -/
structure Joy where
  header : Header
  axes : List ℚ
  buttons : List Int
  deriving DecidableEq

/-- Text of the line printed for axis `i` with value `v`:
`std::cout << "axis " << i << ": " << msg->axes[i] << std::endl`. -/
def axisLine (i : Nat) (v : ℚ) : String :=
  "axis " ++ String.mk (natDigits i) ++ ": " ++ fmtG6 v

/-- Text of the line printed for button `i` with value `v`:
`std::cout << "button " << i << ": " << msg->buttons[i] << std::endl`. -/
def buttonLine (i : Nat) (v : Int) : String :=
  "button " ++ String.mk (natDigits i) ++ ": " ++ fmtInt v

/-- Lines emitted by `for(int i=0; i<n; i++) print(f(i))`: the line for the
last index comes after the lines for the earlier indices. -/
def loopPrint (f : Nat → String) : Nat → List String
  | 0 => []
  | n + 1 => loopPrint f n ++ [f n]

/-- The body of `chatterCallback`: the axis loop followed by the button
loop, as the list of lines written to standard output. `seq.getD i 0` models
the in-bounds access `seq[i]` (every index used is below the length). -/
def chatterCallback (msg : Joy) : List String :=
  loopPrint (fun i => axisLine i (msg.axes.getD i 0)) msg.axes.length ++
  loopPrint (fun i => buttonLine i (msg.buttons.getD i 0)) msg.buttons.length

/-- Variant of `loopPrint` in which every iteration may fail: `f i` is the
line for index `i`, or `none` when the sequence access inside it is out of
bounds, in which case the whole run fails. -/
def loopChecked (f : Nat → Option String) : Nat → Option (List String)
  | 0 => some []
  | n + 1 => (loopChecked f n).bind fun xs => (f n).map fun x => xs ++ [x]

/-- Variant of `chatterCallback` in which every sequence access
`msg->axes[i]` and `msg->buttons[i]` is bounds-checked: it fails exactly
when the C++ code would index out of bounds. -/
def chatterCallbackChecked (msg : Joy) : Option (List String) :=
  (loopChecked (fun i => (msg.axes[i]?).map (axisLine i)) msg.axes.length).bind fun a =>
  (loopChecked (fun i => (msg.buttons[i]?).map (buttonLine i)) msg.buttons.length).map fun b =>
  a ++ b

/-- Process state visible to the callback: the standard-output stream, the
received message, and an abstract component for all other program state. -/
structure ProcessState (σ : Type) where
  stdout : List String
  msg : Joy
  rest : σ

/-- Effect of one `std::cout << ... << std::endl` statement. -/
def printLine {σ : Type} (line : String) (s : ProcessState σ) : ProcessState σ :=
  { s with stdout := s.stdout ++ [line] }

/-- The callback as a state transformer: it performs its print statements in
order on the process state (axis loop first, then button loop) and returns
nothing (`void`). -/
def chatterCallbackRun {σ : Type} (s : ProcessState σ) : ProcessState σ × Unit :=
  let s1 := (loopPrint (fun i => axisLine i (s.msg.axes.getD i 0)) s.msg.axes.length).foldl
    (fun t l => printLine l t) s
  let s2 := (loopPrint (fun i => buttonLine i (s1.msg.buttons.getD i 0)) s1.msg.buttons.length).foldl
    (fun t l => printLine l t) s1
  (s2, ())

/-- QoS profiles selectable at subscription creation; `rmwDefault` models
the middleware constant `rmw_qos_profile_default` that `main` passes. -/
inductive QoSProfile where
  | rmwDefault
  | sensorData
  | servicesDefault
  deriving DecidableEq

/-- One subscription registered with the middleware: a topic name, a QoS
profile and the bound handler. -/
structure Subscription where
  topic : String
  qos : QoSProfile
  callback : Joy → List String

/-- A node handle: its name and the subscriptions registered on it. -/
structure NodeHandle where
  name : String
  subscriptions : List Subscription

/-- Model of `rclcpp::Node::make_shared(name)`: a fresh node with no
subscriptions. -/
def makeNode (name : String) : NodeHandle :=
  { name := name, subscriptions := [] }

/-- Model of `node->create_subscription<Joy>(topic, cb, qos)`: registers one
more subscription on the node and returns the node and the subscription. -/
def create_subscription (n : NodeHandle) (topic : String) (cb : Joy → List String)
    (qos : QoSProfile) : NodeHandle × Subscription :=
  let sub : Subscription := { topic := topic, qos := qos, callback := cb }
  ({ n with subscriptions := n.subscriptions ++ [sub] }, sub)

/-- The node as configured by `main` after `rclcpp::init(argc, argv)`,
`rclcpp::Node::make_shared("listener")` and the single
`create_subscription` call; this is the node handed to `rclcpp::spin`. -/
def mainNode : NodeHandle :=
  (create_subscription (makeNode "listener") "joy" chatterCallback QoSProfile.rmwDefault).1

/-- Model of `rclcpp::spin(node)`: dispatch each incoming message to every
subscription of the node in order, accumulating the standard output, until
the process is externally terminated. -/
def spin (node : NodeHandle) (incoming : List Joy) : List String :=
  incoming.foldl (fun out m => node.subscriptions.foldl (fun o sub => o ++ sub.callback m) out) []

/-- Model of `main` observed until external termination after `incoming`
messages: configure `mainNode`, spin, then `return 0`. `main` is
straight-line code, so this single path (with its exit code) is the whole
behaviour of the program. -/
def mainRun (incoming : List Joy) : List String × Int :=
  (spin mainNode incoming, 0)

/-- The example message of the specification: axes `[0.5, -1.0]` and
buttons `[1, 0]` (both `0.5` and `-1.0` are exactly representable
`float32` values, so their rational images are exact). -/
def exampleJoy : Joy :=
  { header := { stampSec := 0, stampNanosec := 0, frameId := "" },
    axes := [mkRat 1 2, -1], buttons := [1, 0] }

/-- The example message with a different header, used to witness that the
output ignores the header. -/
def exampleJoyAltHeader : Joy :=
  { header := { stampSec := 7, stampNanosec := 42, frameId := "base" },
    axes := [mkRat 1 2, -1], buttons := [1, 0] }

/-- An empty message: no axes, no buttons. -/
def emptyJoy : Joy :=
  { header := { stampSec := 0, stampNanosec := 0, frameId := "" },
    axes := [], buttons := [] }

theorem loopPrint_length (f : Nat → String) (n : Nat) : (loopPrint f n).length = n := by
  induction n with
  | zero => rfl
  | succ n ih => simp [loopPrint, ih]

theorem loopPrint_eq_map_range (f : Nat → String) (n : Nat) :
    loopPrint f n = (List.range n).map f := by
  induction n with
  | zero => rfl
  | succ n ih => rw [loopPrint, List.range_succ, List.map_append, ih]; rfl

theorem loopPrint_getElem? (f : Nat → String) (n i : Nat) (h : i < n) :
    (loopPrint f n)[i]? = some (f i) := by
  induction n with
  | zero => exact absurd h (Nat.not_lt_zero i)
  | succ n ih =>
    rw [loopPrint]
    rcases Nat.lt_succ_iff_lt_or_eq.mp h with h2 | h2
    · rw [List.getElem?_append_left (by rw [loopPrint_length]; exact h2)]
      exact ih h2
    · subst h2
      have hc := List.getElem?_concat_length (loopPrint f i) (f i)
      rwa [loopPrint_length] at hc

theorem mem_loopPrint {f : Nat → String} {n : Nat} {s : String}
    (h : s ∈ loopPrint f n) : ∃ i, i < n ∧ s = f i := by
  rw [loopPrint_eq_map_range] at h
  simp only [List.mem_map, List.mem_range] at h
  obtain ⟨i, hi, rfl⟩ := h
  exact ⟨i, hi, rfl⟩

theorem getElem?_eq_some_getD {α : Type} (l : List α) (i : Nat) (d : α)
    (h : i < l.length) : l[i]? = some (l.getD i d) := by
  rw [List.getD_eq_getElem l d h]
  exact List.getElem?_eq_getElem h

theorem loopChecked_eq_loopPrint {α : Type} (l : List α) (g : Nat → α → String) (d : α)
    (n : Nat) (hn : n ≤ l.length) :
    loopChecked (fun i => (l[i]?).map (g i)) n =
      some (loopPrint (fun i => g i (l.getD i d)) n) := by
  induction n with
  | zero => rfl
  | succ n ih =>
    have h1 : n < l.length := Nat.lt_of_lt_of_le (Nat.lt_succ_self n) hn
    rw [loopChecked, ih (Nat.le_of_succ_le hn)]
    simp only [getElem?_eq_some_getD l n d h1, Option.bind_eq_bind, Option.some_bind,
      Option.map_some]
    rfl

theorem foldl_printLine {σ : Type} (ls : List String) (s : ProcessState σ) :
    ls.foldl (fun t l => printLine l t) s = { s with stdout := s.stdout ++ ls } := by
  induction ls generalizing s with
  | nil => simp
  | cons a ls ih =>
    rw [List.foldl_cons, ih]
    simp [printLine]

/-- C1: a single invocation of `chatterCallback` on a message with `N` axis
values and `M` button values writes exactly `N + M` lines, all `N` axis
lines (each of the literal form `axis <index>: <value>`) before all `M`
button lines (each of the literal form `button <index>: <value>`). -/
theorem chatterCallback_line_count_and_shape (msg : Joy) :
    (chatterCallback msg).length = msg.axes.length + msg.buttons.length ∧
    ∃ A B, chatterCallback msg = A ++ B ∧
      A.length = msg.axes.length ∧ B.length = msg.buttons.length ∧
      (∀ s ∈ A, ∃ i v, s = axisLine i v) ∧
      (∀ s ∈ B, ∃ i v, s = buttonLine i v) := by
  constructor
  · simp [chatterCallback, loopPrint_length]
  · refine ⟨_, _, rfl, loopPrint_length _ _, loopPrint_length _ _, ?_, ?_⟩
    · intro s hs
      obtain ⟨i, _, rfl⟩ := mem_loopPrint hs
      exact ⟨i, _, rfl⟩
    · intro s hs
      obtain ⟨i, _, rfl⟩ := mem_loopPrint hs
      exact ⟨i, _, rfl⟩

/-- Witness for C1 at the specification's example message. -/
theorem chatterCallback_line_count_and_shape_witness :
    (chatterCallback exampleJoy).length = exampleJoy.axes.length + exampleJoy.buttons.length ∧
    ∃ A B, chatterCallback exampleJoy = A ++ B ∧
      A.length = exampleJoy.axes.length ∧ B.length = exampleJoy.buttons.length ∧
      (∀ s ∈ A, ∃ i v, s = axisLine i v) ∧
      (∀ s ∈ B, ∃ i v, s = buttonLine i v) :=
  chatterCallback_line_count_and_shape exampleJoy

/-- C2: on the message with axes `[0.5, -1.0]` and buttons `[1, 0]`, the
callback emits exactly the four lines `axis 0: 0.5`, `axis 1: -1`,
`button 0: 1`, `button 1: 0`, in that order; in particular the axis value
`-1.0` is rendered as `-1`. -/
theorem chatterCallback_spec_example :
    chatterCallback exampleJoy =
      ["axis 0: 0.5", "axis 1: -1", "button 0: 1", "button 1: 0"] := by
  decide

/-- C3: the value printed on the `i`-th axis line is the rendering of
exactly the `i`-th element of `msg.axes`, and the value printed on the
`i`-th button line (at position `N + i` of the output) is the rendering of
exactly the `i`-th element of `msg.buttons` — identity passthrough, no
transformation of either numeric value. -/
theorem chatterCallback_value_passthrough (msg : Joy) (i : Nat) :
    (∀ h : i < msg.axes.length,
      (chatterCallback msg)[i]? = some (axisLine i (msg.axes.get ⟨i, h⟩))) ∧
    (∀ h : i < msg.buttons.length,
      (chatterCallback msg)[msg.axes.length + i]? =
        some (buttonLine i (msg.buttons.get ⟨i, h⟩))) := by
  constructor
  · intro h
    rw [chatterCallback,
      List.getElem?_append_left (by rw [loopPrint_length]; exact h),
      loopPrint_getElem? _ _ _ h, List.getD_eq_getElem msg.axes 0 h]
    rfl
  · intro h
    rw [chatterCallback,
      List.getElem?_append_right (by rw [loopPrint_length]; exact Nat.le_add_right _ _),
      loopPrint_length]
    rw [Nat.add_sub_cancel_left, loopPrint_getElem? _ _ _ h,
      List.getD_eq_getElem msg.buttons 0 h]
    rfl

/-- Witness for C3: at the example message, button line 1 sits at output
position `N + 1` and carries exactly the second button value. -/
theorem chatterCallback_value_passthrough_witness :
    (chatterCallback exampleJoy)[exampleJoy.axes.length + 1]? =
      some (buttonLine 1 (exampleJoy.buttons.get ⟨1, by decide⟩)) :=
  (chatterCallback_value_passthrough exampleJoy 1).2 (by decide)

/-- C4: the axis lines carry the indices `0, 1, ..., N-1` in that order and
the button lines carry the indices `0, 1, ..., M-1` in that order: the
output is the axis lines for `i ∈ List.range N` followed by the button
lines for `i ∈ List.range M`, so the printed indices start at 0 and
increase by exactly 1 with no gaps in each block. -/
theorem chatterCallback_indices (msg : Joy) :
    chatterCallback msg =
      ((List.range msg.axes.length).map fun i => axisLine i (msg.axes.getD i 0)) ++
      ((List.range msg.buttons.length).map fun i => buttonLine i (msg.buttons.getD i 0)) := by
  rw [chatterCallback, loopPrint_eq_map_range, loopPrint_eq_map_range]

/-- C5: on a message whose axes and buttons sequences are both empty, the
callback emits zero lines. -/
theorem chatterCallback_empty (msg : Joy) (ha : msg.axes = []) (hb : msg.buttons = []) :
    chatterCallback msg = [] := by
  rw [chatterCallback, ha, hb]
  rfl

/-- Witness for C5 at the concrete empty message. -/
theorem chatterCallback_empty_witness : chatterCallback emptyJoy = [] :=
  chatterCallback_empty emptyJoy rfl rfl

/-- C6: the callback never fails: with every sequence access bounds-checked,
the run still succeeds on every message and produces exactly the normal
output — every access is in bounds, no error branch is reachable, and zero
axes or buttons just produce no output for that part. -/
theorem chatterCallback_never_fails (msg : Joy) :
    chatterCallbackChecked msg = some (chatterCallback msg) := by
  rw [chatterCallbackChecked,
    loopChecked_eq_loopPrint msg.axes axisLine 0 msg.axes.length (Nat.le_refl _),
    loopChecked_eq_loopPrint msg.buttons buttonLine 0 msg.buttons.length (Nat.le_refl _)]
  rfl

/-- C7: the callback's only effect is to append its lines to standard
output: it returns nothing (`void`), leaves the received message unchanged,
and leaves every other component of the process state unchanged. -/
theorem chatterCallbackRun_frame {σ : Type} (s : ProcessState σ) :
    chatterCallbackRun s =
      ({ stdout := s.stdout ++ chatterCallback s.msg, msg := s.msg, rest := s.rest }, ()) := by
  rw [chatterCallbackRun]
  simp only [foldl_printLine]
  simp [chatterCallback, List.append_assoc]

/-- C8: `main` registers exactly one subscription — topic literally `"joy"`,
QoS profile `rmw_qos_profile_default`, handler `chatterCallback` — on the
node named `"listener"`. -/
theorem main_single_subscription :
    mainNode.name = "listener" ∧
    mainNode.subscriptions =
      [{ topic := "joy", qos := QoSProfile.rmwDefault, callback := chatterCallback }] :=
  ⟨rfl, rfl⟩

/-- C9: whatever messages arrive before external termination, `main`
returns exit code 0; `mainRun` is the program's only path, so there is no
other exit path. -/
theorem main_exit_code_zero (incoming : List Joy) : (mainRun incoming).2 = 0 :=
  rfl

/-- C10: the callback is a function of the axes and buttons fields only:
two messages agreeing on `axes` and `buttons` (headers arbitrary) produce
identical output. -/
theorem chatterCallback_depends_only_on_axes_buttons (m1 m2 : Joy)
    (ha : m1.axes = m2.axes) (hb : m1.buttons = m2.buttons) :
    chatterCallback m1 = chatterCallback m2 := by
  rw [chatterCallback, chatterCallback, ha, hb]

/-- Witness for C10: the example message and its variant with a different
header produce identical output. -/
theorem chatterCallback_depends_only_on_axes_buttons_witness :
    chatterCallback exampleJoy = chatterCallback exampleJoyAltHeader :=
  chatterCallback_depends_only_on_axes_buttons exampleJoy exampleJoyAltHeader rfl rfl
